import Mathlib

/-!
Shallow embedding of the shaman-bot repository (bot.py, services.py,
models.py) for verifying its specification.  Python strings are Lean
`String`s; the external backends (OpenAI, PokeAPI, the database engine)
are oracle parameters; side effects of a handler are an explicit event
trace.
-/

namespace ShamanBot

/-! ### Python string primitives (CPython semantics on the ASCII inputs used here) -/

/-- The whitespace characters stripped by Python `str.strip()` (ASCII part). -/
def isPySpace (c : Char) : Bool :=
  c = ' ' || c = '\t' || c = '\n' || c = '\r' || c = '\x0b' || c = '\x0c'

/-- `str.strip()` on a character list: drop whitespace from both ends. -/
def pyStripList (l : List Char) : List Char :=
  ((l.dropWhile isPySpace).reverse.dropWhile isPySpace).reverse

/-- Python `s.strip()`. -/
def pyStrip (s : String) : String :=
  ⟨pyStripList s.data⟩

/-- Worker for Python `str.replace` with a non-empty pattern: scan left to
right, replacing each non-overlapping occurrence of `old` by `new`.
`fuel` is an upper bound on the number of scan steps; `fuel = l.length`
suffices because each step consumes at least one character. -/
def replaceAuxF (old new : List Char) : Nat → List Char → List Char
  | 0, l => l
  | _ + 1, [] => []
  | fuel + 1, c :: rest =>
    if old.isPrefixOf (c :: rest) then
      new ++ replaceAuxF old new fuel (rest.drop (old.length - 1))
    else
      c :: replaceAuxF old new fuel rest

/-- Python `s.replace(old, new)` for a non-empty `old` (the bot only ever
replaces the command tokens "/gpt" and "/pokemon"). -/
def pyReplace (s old new : String) : String :=
  ⟨replaceAuxF old.data new.data s.data.length s.data⟩

/-- Does `pat` occur as a contiguous sublist of `l`?  (Python `pat in s`.) -/
def hasSubstr (pat : List Char) : List Char → Bool
  | [] => pat.isEmpty
  | c :: rest => pat.isPrefixOf (c :: rest) || hasSubstr pat rest

/-- Python `pat in s` on strings. -/
def strContains (s pat : String) : Bool :=
  hasSubstr pat.data s.data

/-- Python `s.lower()` (ASCII range, which covers the inputs used). -/
def pyLower (s : String) : String :=
  ⟨s.data.map Char.toLower⟩

/-- Python `s.capitalize()`: first character upper-cased, the rest
lower-cased (ASCII range). -/
def pyCapitalize (s : String) : String :=
  match s.data with
  | [] => ""
  | c :: rest => ⟨c.toUpper :: rest.map Char.toLower⟩

/-! ### services.py -/

/-- The fixed instruction `ChatGPTService.get_response` appends to the user
text before sending it to the completion backend. -/
def chatgpt_prompt_suffix : String := "\nПожалуйста, ответь на русском языке."

/-- The fixed apology string returned by `ChatGPTService.get_response` when
the backend call raises. -/
def chatgpt_apology : String := "Извините, произошла ошибка при обработке вашего запроса."

namespace ChatGPTService

/-- `ChatGPTService.get_response`.  The OpenAI backend is the oracle
`backend : String → Option String`: `some content` is a successful
`ChatCompletion.create` whose `choices[0].message.content` is `content`;
`none` is any exception raised inside the `try` block (transport, auth,
quota, malformed response).  On success the content is `.strip()`-ed; on
failure the fixed apology string is returned — the function is total, so
no error ever propagates to the caller. -/
def get_response (backend : String → Option String) (message : String) : String :=
  let prompt := message ++ chatgpt_prompt_suffix
  match backend prompt with
  | some content => pyStrip content
  | none => chatgpt_apology

end ChatGPTService

/-- The JSON record `data` parsed from a successful PokeAPI response:
the fields `get_pokemon_info` reads.  Heights and weights are the
backend's stored non-negative integers in tenths of a unit. -/
structure PokemonData where
  name : String
  id : Nat
  height : Nat
  weight : Nat
  abilities : List String
  types : List String
deriving DecidableEq, Repr, Inhabited

/-- Outcome of the PokeAPI HTTP GET keyed by lowercased name:
`resp status data` is an HTTP response with that status code (the parsed
JSON body `data` is only consulted when status is 200);
`exn` is any exception raised anywhere inside the `try` block. -/
inductive PokeBackend where
  | resp (status : Nat) (data : PokemonData)
  | exn
deriving DecidableEq, Repr

/-- The mutable state of a `PokeAPIService` instance: whether
`self.session` is an open `aiohttp.ClientSession`. -/
structure PokeState where
  sessionOpen : Bool
deriving DecidableEq, Repr

/-- Not-found reply of `get_pokemon_info` (status 404): names the query
exactly as typed (not lowercased). -/
def pokemon_not_found (pokemon_name : String) : String :=
  "Покемон с именем " ++ pokemon_name ++ " не найден."

/-- Generic-error reply of `get_pokemon_info` (status neither 200 nor 404). -/
def pokemon_status_error : String := "Произошла ошибка при получении данных о покемоне."

/-- Fixed apology reply of `get_pokemon_info` on any exception. -/
def pokemon_apology : String := "Извините, произошла ошибка при получении информации о покемоне."

/-- `str(n/10)` for a non-negative Python int `n`: true division gives a
float whose shortest round-tripping repr is the exact one-decimal string
(Python always prints at least one fractional digit, so 70/10 prints
"7.0"). -/
def divTenStr (n : Nat) : String :=
  toString (n / 10) ++ "." ++ toString (n % 10)

/-- The f-string summary `get_pokemon_info` builds from a 200 response. -/
def format_pokemon_info (data : PokemonData) : String :=
  "🎮 Информация о покемоне " ++ pyCapitalize data.name ++ ":\n\n" ++
  "📊 Базовые характеристики:\n" ++
  "• ID: " ++ toString data.id ++ "\n" ++
  "• Рост: " ++ divTenStr data.height ++ " м\n" ++
  "• Вес: " ++ divTenStr data.weight ++ " кг\n\n" ++
  "💪 Способности:\n" ++
  "• " ++ String.intercalate "\n• " data.abilities ++ "\n\n" ++
  "📋 Типы: " ++ String.intercalate ", " data.types

namespace PokeAPIService

/-- `PokeAPIService.get_session`: create a new session if none exists or
the existing one is closed, else reuse the open one. -/
def get_session (st : PokeState) : PokeState :=
  if st.sessionOpen then st else { sessionOpen := true }

/-- `PokeAPIService.get_pokemon_info`.  The backend oracle is keyed by the
lowercased name (the URL path component `pokemon_name.lower()`).  Returns
the reply string together with the service state after the `finally`
block, which closes `self.session` when it is open.  Status 404 yields
the not-found string with the name as typed; any other non-200 status
yields the generic-error string; a 200 response is formatted; any
exception yields the fixed apology — the function is total. -/
def get_pokemon_info (backend : String → PokeBackend) (st : PokeState)
    (pokemon_name : String) : String × PokeState :=
  let stOpen := get_session st
  let result :=
    match backend (pyLower pokemon_name) with
    | PokeBackend.resp status data =>
      if status = 404 then pokemon_not_found pokemon_name
      else if status ≠ 200 then pokemon_status_error
      else format_pokemon_info data
    | PokeBackend.exn => pokemon_apology
  let stFinal := if stOpen.sessionOpen then { sessionOpen := false } else stOpen
  (result, stFinal)

end PokeAPIService

/-! ### models.py -/

/-- Observable events of the startup/connection retry loops:
an attempt (0-indexed), a blocking delay of the given number of time
units, a successful connection, a re-raised error, and (bot.py only) the
start of the polling message loop. -/
inductive BootEvent where
  | attempt (i : Nat)
  | delay (units : Nat)
  | connected
  | raiseErr
  | startPolling
deriving DecidableEq, Repr

/-- Body of the `for attempt in range(retries)` loop of
`create_database_connection`: `succ i` says whether the i-th connection
attempt succeeds, `remaining` counts this attempt plus the iterations
still left in the range.  Returns the event trace and whether an engine
was returned.  On failure at the last iteration (`attempt == retries - 1`)
the exception is re-raised with no further delay; otherwise the loop
sleeps `delay` and retries. -/
def connectFrom (succ : Nat → Bool) (delay : Nat) : Nat → Nat → List BootEvent × Bool
  | _, 0 => ([], false)
  | attempt, r + 1 =>
    if succ attempt then ([BootEvent.attempt attempt, BootEvent.connected], true)
    else if r = 0 then ([BootEvent.attempt attempt, BootEvent.raiseErr], false)
    else
      ((BootEvent.attempt attempt) :: (BootEvent.delay delay) ::
        (connectFrom succ delay (attempt + 1) r).1,
       (connectFrom succ delay (attempt + 1) r).2)

/-- `create_database_connection(retries=5, delay=5)` from models.py:
sequential attempts starting at index 0. -/
def create_database_connection (succ : Nat → Bool) (retries : Nat := 5)
    (delay : Nat := 5) : List BootEvent × Bool :=
  connectFrom succ delay 0 retries

/-! ### bot.py -/

/-- A SQLAlchemy session as the handlers see it: how many times `close()`
has been invoked on it. -/
structure DBSession where
  closeCount : Nat
deriving DecidableEq, Repr

/-- `SessionLocal()`: a freshly constructed session, never closed. -/
def SessionLocalNew : DBSession := { closeCount := 0 }

/-- `get_db` from bot.py: constructs a session and returns it from inside a
`try` whose `finally` calls `db.close()` — the `finally` runs while the
return is in flight, so the returned session has been closed once. -/
def get_db : DBSession :=
  let db := SessionLocalNew
  { db with closeCount := db.closeCount + 1 }

/-- The `UserMessage` row a handler persists (models.py; the
`created_at` column is filled by a database-side default and carries no
handler-visible data, so it is omitted). -/
structure UserMessage where
  user_id : Int
  user_message : String
  bot_response : String
  api_source : String
deriving DecidableEq, Repr

/-- Observable side effects of one handler invocation, in program order:
the single external client call, a record added and committed on a
session, a reply sent back through the chat transport. -/
inductive Event where
  | extCall (arg : String)
  | dbWrite (db : DBSession) (rec : UserMessage)
  | reply (text : String)
deriving DecidableEq, Repr

/-- Prompting reply of `handle_gpt` for an empty argument. -/
def gpt_prompt_reply : String := "Пожалуйста, добавьте сообщение после /gpt"

/-- Prompting reply of `handle_pokemon` for an empty argument. -/
def pokemon_prompt_reply : String := "Пожалуйста, укажите имя покемона после /pokemon"

/-- The handlers' argument extraction:
`message.text.replace(cmd, "").strip()` — note `str.replace` deletes
every occurrence of `cmd`, not only the leading one. -/
def extractArg (cmd text : String) : String :=
  pyStrip (pyReplace text cmd "")

/-- `handle_gpt` from bot.py as an event trace.  `getResponseFn` is the
completion client (`chatgpt_service.get_response`), `userId` is
`message.from_user.id`, `text` is `message.text`. -/
def handle_gpt (getResponseFn : String → String) (userId : Int)
    (text : String) : List Event :=
  let user_text := extractArg "/gpt" text
  if user_text = "" then [Event.reply gpt_prompt_reply]
  else
    let response := getResponseFn user_text
    [Event.extCall user_text,
     Event.dbWrite get_db
       { user_id := userId, user_message := user_text,
         bot_response := response, api_source := "chatgpt" },
     Event.reply response]

/-- `handle_pokemon` from bot.py as an event trace.  `getInfoFn` is the
lookup client (`pokeapi_service.get_pokemon_info`). -/
def handle_pokemon (getInfoFn : String → String) (userId : Int)
    (text : String) : List Event :=
  let pokemon_name := extractArg "/pokemon" text
  if pokemon_name = "" then [Event.reply pokemon_prompt_reply]
  else
    let response := getInfoFn pokemon_name
    [Event.extCall pokemon_name,
     Event.dbWrite get_db
       { user_id := userId, user_message := pokemon_name,
         bot_response := response, api_source := "pokeapi" },
     Event.reply response]

/-- Body of the `while retries > 0` loop of `main` in bot.py: `succ i`
says whether the i-th `init_db()` call succeeds, `remaining` is the
current value of `retries`.  Returns the trace and whether the loop was
left via `break` (database initialised).  On failure the counter is
decremented first; at zero the exception is re-raised with no delay,
otherwise the loop sleeps 5 seconds and retries. -/
def mainLoop (succ : Nat → Bool) : Nat → Nat → List BootEvent × Bool
  | _, 0 => ([], true)
  | attempt, r + 1 =>
    if succ attempt then ([BootEvent.attempt attempt, BootEvent.connected], true)
    else if r = 0 then ([BootEvent.attempt attempt, BootEvent.raiseErr], false)
    else
      ((BootEvent.attempt attempt) :: (BootEvent.delay 5) ::
        (mainLoop succ (attempt + 1) r).1,
       (mainLoop succ (attempt + 1) r).2)

/-- `main` from bot.py: the retry loop with `retries = 5`, then — only
when the loop completed without re-raising — `dp.start_polling(bot)`. -/
def bot_main (succ : Nat → Bool) : List BootEvent :=
  let r := mainLoop succ 0 5
  if r.2 then r.1 ++ [BootEvent.startPolling] else r.1

/-- Argument extraction as the spec words it: the command token
(including its leading marker) is stripped from the start of the message
text only, then both ends are whitespace-trimmed; everything else,
including later occurrences of the token, is preserved verbatim.  Written
from the spec's words to compare with the code's `extractArg`. -/
def specExtractArg (cmd text : String) : String :=
  if cmd.data.isPrefixOf text.data then pyStrip ⟨text.data.drop cmd.data.length⟩
  else pyStrip text

/-! ### Helper lemmas about `replaceAuxF` -/

/-- When the pattern occurs nowhere in `l`, replacement leaves `l`
unchanged (given enough fuel). -/
theorem replaceAuxF_no_occurrence (pat new : List Char) :
    ∀ (l : List Char) (fuel : Nat), l.length ≤ fuel →
      hasSubstr pat l = false → replaceAuxF pat new fuel l = l := by
  intro l
  induction l with
  | nil => intro fuel _ _; cases fuel <;> rfl
  | cons c rest ih =>
    intro fuel hfuel hsub
    cases fuel with
    | zero => simp at hfuel
    | succ f =>
      simp only [hasSubstr, Bool.or_eq_false_iff] at hsub
      simp only [replaceAuxF, hsub.1, if_false, Bool.false_eq_true]
      have : rest.length ≤ f := by simpa using Nat.le_of_succ_le_succ hfuel
      rw [ih f this hsub.2]

/-- Replacing a non-empty pattern in `pat ++ l` when the pattern does not
occur in `l`: exactly the leading occurrence is replaced. -/
theorem replaceAuxF_strip_leading (pat new l : List Char) (hpat : pat ≠ []) (hsub : hasSubstr pat l = false) :
    replaceAuxF pat new (pat ++ l).length (pat ++ l) = new ++ l := by
  cases pat with
  | nil => exact absurd rfl hpat
  | cons c pat' =>
    have hpref : (c :: pat').isPrefixOf ((c :: pat') ++ l) = true :=
      List.isPrefixOf_iff_prefix.mpr (List.prefix_append _ _)
    rw [List.cons_append] at hpref
    have hlen : ((c :: pat') ++ l).length = (pat' ++ l).length + 1 := by
      simp [List.length_append]
    rw [hlen]
    show replaceAuxF (c :: pat') new ((pat' ++ l).length + 1) (c :: (pat' ++ l)) = new ++ l
    rw [replaceAuxF]
    rw [if_pos hpref]
    have hdrop : (pat' ++ l).drop ((c :: pat').length - 1) = l := by
      simp only [List.length_cons, Nat.add_sub_cancel]
      exact List.drop_left pat' l
    rw [hdrop]
    rw [replaceAuxF_no_occurrence (c :: pat') new l (pat' ++ l).length
      (by simp [List.length_append]) hsub]

/-! ### Claim theorems -/

/-- C1: for every /gpt message whose extracted argument is non-empty, the
handler calls the completion client exactly once with that argument,
persists exactly one record with `user_message` the argument,
`bot_response` the client's returned string and source tag "chatgpt",
and sends exactly one reply equal to that returned string — the whole
trace is these three events. -/
theorem gpt_handler_persists_and_replies (getResponseFn : String → String)
    (userId : Int) (text : String) (h : extractArg "/gpt" text ≠ "") :
    handle_gpt getResponseFn userId text =
      [Event.extCall (extractArg "/gpt" text),
       Event.dbWrite get_db
         { user_id := userId, user_message := extractArg "/gpt" text,
           bot_response := getResponseFn (extractArg "/gpt" text),
           api_source := "chatgpt" },
       Event.reply (getResponseFn (extractArg "/gpt" text))] := by
  simp only [handle_gpt, if_neg h]

/-- Witness for C1 at the concrete message "/gpt привет". -/
theorem gpt_handler_persists_and_replies_witness :
    extractArg "/gpt" "/gpt привет" ≠ "" ∧
    handle_gpt (fun _ => "ответ") 7 "/gpt привет" =
      [Event.extCall "привет",
       Event.dbWrite get_db
         { user_id := 7, user_message := "привет",
           bot_response := "ответ", api_source := "chatgpt" },
       Event.reply "ответ"] :=
  ⟨by decide,
   (gpt_handler_persists_and_replies (fun _ => "ответ") 7 "/gpt привет"
     (by decide)).trans (by decide)⟩

/-- C2: for every /gpt or /pokemon message whose extracted argument is
empty (i.e. empty or whitespace-only after trimming), the handler's
whole trace is the single fixed prompting reply: no external call, no
persisted record. -/
theorem empty_argument_prompts_only (g p : String → String) (uid : Int)
    (t1 t2 : String) :
    (extractArg "/gpt" t1 = "" →
      handle_gpt g uid t1 = [Event.reply gpt_prompt_reply]) ∧
    (extractArg "/pokemon" t2 = "" →
      handle_pokemon p uid t2 = [Event.reply pokemon_prompt_reply]) := by
  constructor
  · intro h; simp only [handle_gpt, if_pos h]
  · intro h; simp only [handle_pokemon, if_pos h]

/-- Witness for C2 at the whitespace-only messages "/gpt   " and
"/pokemon". -/
theorem empty_argument_prompts_only_witness :
    extractArg "/gpt" "/gpt   " = "" ∧ extractArg "/pokemon" "/pokemon" = "" ∧
    handle_gpt (fun _ => "x") 0 "/gpt   " = [Event.reply gpt_prompt_reply] ∧
    handle_pokemon (fun _ => "x") 0 "/pokemon" = [Event.reply pokemon_prompt_reply] :=
  ⟨by decide, by decide,
   (empty_argument_prompts_only (fun _ => "x") (fun _ => "x") 0 "/gpt   " "/pokemon").1 (by decide),
   (empty_argument_prompts_only (fun _ => "x") (fun _ => "x") 0 "/gpt   " "/pokemon").2 (by decide)⟩

/-- C3 counterexample: the claim says a later occurrence of the command
token inside the argument is preserved verbatim, but the handlers use
`str.replace`, which deletes every occurrence.  On the message
"/gpt say /gpt please" the code's argument is "say  please" — the inner
"/gpt" is gone — while the claim's strip-from-start rule yields
"say /gpt please"; the handler then calls the client with, persists and
echoes the mutilated argument. -/
theorem replace_all_extraction_counterexample :
    extractArg "/gpt" "/gpt say /gpt please" = "say  please" ∧
    specExtractArg "/gpt" "/gpt say /gpt please" = "say /gpt please" ∧
    extractArg "/gpt" "/gpt say /gpt please" ≠
      specExtractArg "/gpt" "/gpt say /gpt please" ∧
    handle_gpt (fun s => s) 0 "/gpt say /gpt please" =
      [Event.extCall "say  please",
       Event.dbWrite get_db
         { user_id := 0, user_message := "say  please",
           bot_response := "say  please", api_source := "chatgpt" },
       Event.reply "say  please"] :=
  ⟨by decide, by decide, by decide, by decide⟩

/-- C3 amended: argument extraction deletes every occurrence of the
command token from the message text and then whitespace-trims both ends;
in particular, whenever the token does not reoccur after the leading
token, the claim's rule holds: the argument is the message with the
leading token stripped from the start, trimmed, every other character
preserved verbatim. -/
theorem extraction_strip_prefix_when_no_reoccurrence (cmd rest : String)
    (h1 : cmd ≠ "") (h2 : hasSubstr cmd.data rest.data = false) :
    extractArg cmd (cmd ++ rest) = pyStrip rest := by
  have hdata : cmd.data ≠ [] := fun hc => h1 (by
    cases cmd with
    | mk l => simpa using congrArg String.mk hc)
  unfold extractArg pyReplace
  rw [String.data_append]
  rw [replaceAuxF_strip_leading cmd.data [] rest.data hdata h2]
  rfl

/-- Witness for the amended C3 at cmd = "/gpt", rest = " hello". -/
theorem extraction_strip_prefix_when_no_reoccurrence_witness :
    ("/gpt" : String) ≠ "" ∧
    hasSubstr ("/gpt" : String).data (" hello" : String).data = false ∧
    extractArg "/gpt" ("/gpt" ++ " hello") = pyStrip " hello" :=
  ⟨by decide, by decide,
   extraction_strip_prefix_when_no_reoccurrence "/gpt" " hello" (by decide) (by decide)⟩

/-- C4: the completion client's `get_response` is total (it never raises
to its caller — in the embedding it always returns a string): when the
backend call succeeds with content `c` it returns `c` trimmed, and when
the backend call fails in any way it returns the fixed apology string. -/
theorem get_response_total_trim_or_apology (backend : String → Option String)
    (message : String) :
    (∀ content, backend (message ++ chatgpt_prompt_suffix) = some content →
      ChatGPTService.get_response backend message = pyStrip content) ∧
    (backend (message ++ chatgpt_prompt_suffix) = none →
      ChatGPTService.get_response backend message = chatgpt_apology) := by
  constructor
  · intro c hc; simp only [ChatGPTService.get_response, hc]
  · intro hn; simp only [ChatGPTService.get_response, hn]

/-- Witness for C4: a backend returning "  ок  " gives the trimmed "ок";
a failing backend gives the apology. -/
theorem get_response_total_trim_or_apology_witness :
    ChatGPTService.get_response (fun _ => some "  ок  ") "hi" = "ок" ∧
    ChatGPTService.get_response (fun _ => none) "hi" = chatgpt_apology :=
  ⟨((get_response_total_trim_or_apology (fun _ => some "  ок  ") "hi").1
      "  ок  " rfl).trans (by decide),
   (get_response_total_trim_or_apology (fun _ => none) "hi").2 rfl⟩

/-- C5: the lookup client's result mapping is total and never raises: a
404 yields the fixed not-found string naming the query exactly as typed
(not lowercased), and in that case a handler built on it still persists
one record with source tag "pokeapi" and replies with that string; any
other non-success status yields the fixed generic-error string; any
exception yields the fixed apology string. -/
theorem pokemon_lookup_result_mapping (backend : String → PokeBackend)
    (st : PokeState) (uid : Int) (name text : String) :
    (∀ d, backend (pyLower name) = PokeBackend.resp 404 d →
      (PokeAPIService.get_pokemon_info backend st name).1 =
        "Покемон с именем " ++ name ++ " не найден." ∧
      (extractArg "/pokemon" text = name → name ≠ "" →
        handle_pokemon (fun n => (PokeAPIService.get_pokemon_info backend st n).1)
            uid text =
          [Event.extCall name,
           Event.dbWrite get_db
             { user_id := uid, user_message := name,
               bot_response := pokemon_not_found name, api_source := "pokeapi" },
           Event.reply (pokemon_not_found name)])) ∧
    (∀ s d, backend (pyLower name) = PokeBackend.resp s d → s ≠ 404 → s ≠ 200 →
      (PokeAPIService.get_pokemon_info backend st name).1 = pokemon_status_error) ∧
    (backend (pyLower name) = PokeBackend.exn →
      (PokeAPIService.get_pokemon_info backend st name).1 = pokemon_apology) := by
  refine ⟨?_, ?_, ?_⟩
  · intro d hb
    have hres : (PokeAPIService.get_pokemon_info backend st name).1 =
        pokemon_not_found name := by
      simp [PokeAPIService.get_pokemon_info, hb]
    refine ⟨hres.trans rfl, ?_⟩
    intro harg hne
    subst harg
    simp only [handle_pokemon, if_neg hne, hres]
  · intro s d hb h404 h200
    simp [PokeAPIService.get_pokemon_info, hb, h404, h200]
  · intro hb
    simp [PokeAPIService.get_pokemon_info, hb]

/-- Witness for C5 at the query "MewTwo" against a backend that answers
404 for "mewtwo", 500 for "a" and raises for everything else. -/
theorem pokemon_lookup_result_mapping_witness :
    (PokeAPIService.get_pokemon_info
        (fun s => if s = "mewtwo" then PokeBackend.resp 404 default
                  else if s = "a" then PokeBackend.resp 500 default
                  else PokeBackend.exn)
        { sessionOpen := false } "MewTwo").1 =
      "Покемон с именем MewTwo не найден." ∧
    handle_pokemon
        (fun n => (PokeAPIService.get_pokemon_info
          (fun s => if s = "mewtwo" then PokeBackend.resp 404 default
                    else if s = "a" then PokeBackend.resp 500 default
                    else PokeBackend.exn)
          { sessionOpen := false } n).1) 3 "/pokemon MewTwo" =
      [Event.extCall "MewTwo",
       Event.dbWrite get_db
         { user_id := 3, user_message := "MewTwo",
           bot_response := pokemon_not_found "MewTwo", api_source := "pokeapi" },
       Event.reply (pokemon_not_found "MewTwo")] ∧
    (PokeAPIService.get_pokemon_info
        (fun s => if s = "mewtwo" then PokeBackend.resp 404 default
                  else if s = "a" then PokeBackend.resp 500 default
                  else PokeBackend.exn)
        { sessionOpen := false } "A").1 = pokemon_status_error ∧
    (PokeAPIService.get_pokemon_info
        (fun s => if s = "mewtwo" then PokeBackend.resp 404 default
                  else if s = "a" then PokeBackend.resp 500 default
                  else PokeBackend.exn)
        { sessionOpen := false } "zzz").1 = pokemon_apology :=
  ⟨((pokemon_lookup_result_mapping _ { sessionOpen := false } 3 "MewTwo"
      "/pokemon MewTwo").1 default (by decide)).1,
   ((pokemon_lookup_result_mapping _ { sessionOpen := false } 3 "MewTwo"
      "/pokemon MewTwo").1 default (by decide)).2 (by decide) (by decide),
   (pokemon_lookup_result_mapping _ { sessionOpen := false } 3 "A"
      "/pokemon A").2.1 500 default (by decide) (by decide) (by decide),
   (pokemon_lookup_result_mapping _ { sessionOpen := false } 3 "zzz"
      "/pokemon zzz").2.2 (by decide)⟩

/-- C6: in the formatted summary, height and weight are the backend's
stored integers divided by ten under true division, not integer
truncation: backend values height=7 and weight=69 render as 0.7 and 6.9
(integer division would print "0" and "6"). -/
theorem height_weight_true_division :
    divTenStr 7 = "0.7" ∧ divTenStr 69 = "6.9" ∧
    toString ((7 : Nat) / 10) = "0" ∧ divTenStr 7 ≠ toString ((7 : Nat) / 10) ∧
    toString ((69 : Nat) / 10) = "6" ∧ divTenStr 69 ≠ toString ((69 : Nat) / 10) ∧
    strContains
      (format_pokemon_info
        { name := "pikachu", id := 25, height := 7, weight := 69,
          abilities := ["static"], types := ["electric"] })
      "• Рост: 0.7 м" = true ∧
    strContains
      (format_pokemon_info
        { name := "pikachu", id := 25, height := 7, weight := 69,
          abilities := ["static"], types := ["electric"] })
      "• Вес: 6.9 кг" = true :=
  ⟨by decide, by decide, by decide, by decide, by decide, by decide,
   by decide, by decide⟩

/-- The trace of `k` failed attempts, each followed by the fixed delay
of `d` time units. -/
def delayedAttempts (k d : Nat) : List BootEvent :=
  (List.range k).flatMap (fun i => [BootEvent.attempt i, BootEvent.delay d])

/-- C7: the startup retry policy makes at most 5 sequential attempts with
a fixed 5-unit delay between consecutive attempts and no delay after the
final failure.  If the attempt with index k (0-based, so the (k+1)-th)
succeeds, the remaining attempts are skipped, exactly k delays have been
paid, and the message loop starts; if all 5 attempts fail, the error is
re-raised and the message loop never starts (the trace ends in
`raiseErr`, with no `startPolling`).  The same holds of
`create_database_connection` in models.py at its defaults. -/
theorem startup_retry_policy (succ : Nat → Bool) :
    ((∀ i, i < 5 → succ i = false) →
      bot_main succ =
        delayedAttempts 4 5 ++ [BootEvent.attempt 4, BootEvent.raiseErr] ∧
      create_database_connection succ 5 5 =
        (delayedAttempts 4 5 ++ [BootEvent.attempt 4, BootEvent.raiseErr], false)) ∧
    (∀ k, k < 5 → (∀ i, i < k → succ i = false) → succ k = true →
      bot_main succ =
        delayedAttempts k 5 ++
          [BootEvent.attempt k, BootEvent.connected, BootEvent.startPolling] ∧
      create_database_connection succ 5 5 =
        (delayedAttempts k 5 ++ [BootEvent.attempt k, BootEvent.connected], true)) := by
  constructor
  · intro h
    have h0 := h 0 (by omega)
    have h1 := h 1 (by omega)
    have h2 := h 2 (by omega)
    have h3 := h 3 (by omega)
    have h4 := h 4 (by omega)
    refine ⟨?_, ?_⟩ <;>
      · simp [bot_main, create_database_connection, mainLoop, connectFrom,
          h0, h1, h2, h3, h4]
        decide
  · intro k hk hfail hsucc
    interval_cases k
    · refine ⟨?_, ?_⟩ <;>
        · simp [bot_main, create_database_connection, mainLoop, connectFrom, hsucc]
          decide
    · have h0 := hfail 0 (by omega)
      refine ⟨?_, ?_⟩ <;>
        · simp [bot_main, create_database_connection, mainLoop, connectFrom, h0, hsucc]
          decide
    · have h0 := hfail 0 (by omega)
      have h1 := hfail 1 (by omega)
      refine ⟨?_, ?_⟩ <;>
        · simp [bot_main, create_database_connection, mainLoop, connectFrom,
            h0, h1, hsucc]
          decide
    · have h0 := hfail 0 (by omega)
      have h1 := hfail 1 (by omega)
      have h2 := hfail 2 (by omega)
      refine ⟨?_, ?_⟩ <;>
        · simp [bot_main, create_database_connection, mainLoop, connectFrom,
            h0, h1, h2, hsucc]
          decide
    · have h0 := hfail 0 (by omega)
      have h1 := hfail 1 (by omega)
      have h2 := hfail 2 (by omega)
      have h3 := hfail 3 (by omega)
      refine ⟨?_, ?_⟩ <;>
        · simp [bot_main, create_database_connection, mainLoop, connectFrom,
            h0, h1, h2, h3, hsucc]
          decide

/-- Witness for C7: a persistently failing connection, and one that
succeeds on the third attempt. -/
theorem startup_retry_policy_witness :
    bot_main (fun _ => false) =
      delayedAttempts 4 5 ++ [BootEvent.attempt 4, BootEvent.raiseErr] ∧
    create_database_connection (fun _ => false) 5 5 =
      (delayedAttempts 4 5 ++ [BootEvent.attempt 4, BootEvent.raiseErr], false) ∧
    bot_main (fun i => decide (2 ≤ i)) =
      delayedAttempts 2 5 ++
        [BootEvent.attempt 2, BootEvent.connected, BootEvent.startPolling] ∧
    create_database_connection (fun i => decide (2 ≤ i)) 5 5 =
      (delayedAttempts 2 5 ++ [BootEvent.attempt 2, BootEvent.connected], true) :=
  ⟨((startup_retry_policy (fun _ => false)).1 (fun _ _ => rfl)).1,
   ((startup_retry_policy (fun _ => false)).1 (fun _ _ => rfl)).2,
   ((startup_retry_policy (fun i => decide (2 ≤ i))).2 2 (by omega)
      (by decide) (by decide)).1,
   ((startup_retry_policy (fun i => decide (2 ≤ i))).2 2 (by omega)
      (by decide) (by decide)).2⟩

/-- C8: for every handled /gpt or /pokemon command with a non-empty
argument, the trace is exactly one external call, then exactly one
storage write, then exactly one reply, in that strict order. -/
theorem handler_effect_order (g p : String → String) (uid : Int)
    (t1 t2 : String) :
    (extractArg "/gpt" t1 ≠ "" →
      ∃ a db rec r, handle_gpt g uid t1 =
        [Event.extCall a, Event.dbWrite db rec, Event.reply r]) ∧
    (extractArg "/pokemon" t2 ≠ "" →
      ∃ a db rec r, handle_pokemon p uid t2 =
        [Event.extCall a, Event.dbWrite db rec, Event.reply r]) := by
  constructor
  · intro h
    refine ⟨extractArg "/gpt" t1, get_db,
      { user_id := uid, user_message := extractArg "/gpt" t1,
        bot_response := g (extractArg "/gpt" t1), api_source := "chatgpt" },
      g (extractArg "/gpt" t1), ?_⟩
    simp only [handle_gpt, if_neg h]
  · intro h
    refine ⟨extractArg "/pokemon" t2, get_db,
      { user_id := uid, user_message := extractArg "/pokemon" t2,
        bot_response := p (extractArg "/pokemon" t2), api_source := "pokeapi" },
      p (extractArg "/pokemon" t2), ?_⟩
    simp only [handle_pokemon, if_neg h]

/-- Witness for C8 at the messages "/gpt hi" and "/pokemon mew". -/
theorem handler_effect_order_witness :
    (∃ a db rec r, handle_gpt (fun _ => "x") 0 "/gpt hi" =
      [Event.extCall a, Event.dbWrite db rec, Event.reply r]) ∧
    (∃ a db rec r, handle_pokemon (fun _ => "y") 0 "/pokemon mew" =
      [Event.extCall a, Event.dbWrite db rec, Event.reply r]) :=
  ⟨(handler_effect_order (fun _ => "x") (fun _ => "y") 0 "/gpt hi" "/pokemon mew").1
     (by decide),
   (handler_effect_order (fun _ => "x") (fun _ => "y") 0 "/gpt hi" "/pokemon mew").2
     (by decide)⟩

/-- C9: on every exit path of `get_pokemon_info` — success, not-found,
other status, exception — the `finally` block leaves the network session
closed, whatever the backend does and whatever state the service started
in. -/
theorem session_closed_on_every_path (backend : String → PokeBackend)
    (st : PokeState) (name : String) :
    ((PokeAPIService.get_pokemon_info backend st name).2).sessionOpen = false := by
  cases hs : st.sessionOpen <;>
    simp [PokeAPIService.get_pokemon_info, PokeAPIService.get_session, hs]

/-- C10: `get_db`'s `finally` calls `close()` on the new session while
the return is in flight, so the session it hands back has been closed
exactly once — and every record a handler persists is added and
committed on such a session. -/
theorem get_db_closes_before_return :
    get_db.closeCount = 1 ∧
    (∀ (g : String → String) (uid : Int) (t : String) (db : DBSession)
        (rec : UserMessage),
      Event.dbWrite db rec ∈ handle_gpt g uid t → db.closeCount = 1) ∧
    (∀ (p : String → String) (uid : Int) (t : String) (db : DBSession)
        (rec : UserMessage),
      Event.dbWrite db rec ∈ handle_pokemon p uid t → db.closeCount = 1) := by
  refine ⟨rfl, ?_, ?_⟩
  · intro g uid t db rec hmem
    by_cases he : extractArg "/gpt" t = ""
    · simp [handle_gpt, he] at hmem
    · simp [handle_gpt, he] at hmem
      rw [hmem.1]
      rfl
  · intro p uid t db rec hmem
    by_cases he : extractArg "/pokemon" t = ""
    · simp [handle_pokemon, he] at hmem
    · simp [handle_pokemon, he] at hmem
      rw [hmem.1]
      rfl

/-- Witness for C10: the record persisted for "/gpt hi" sits on the
once-closed `get_db` session. -/
theorem get_db_closes_before_return_witness :
    (Event.dbWrite get_db
      { user_id := 0, user_message := "hi", bot_response := "x",
        api_source := "chatgpt" } ∈ handle_gpt (fun _ => "x") 0 "/gpt hi") ∧
    get_db.closeCount = 1 :=
  ⟨by decide,
   get_db_closes_before_return.2.1 (fun _ => "x") 0 "/gpt hi" get_db
     { user_id := 0, user_message := "hi", bot_response := "x",
       api_source := "chatgpt" } (by decide)⟩

end ShamanBot
